import Mathlib

/-!
Shallow embedding of the transaction-history SDK core
(rate limiter, retry policy, providers, adapters, query cache)
with proofs of the specified properties.

Sources embedded:
- src/src/utils/retry.ts            (retry with exponential backoff)
- src/unnamed/part_008              (RateLimiter, token buckets)
- src/unnamed/part_002              (EthereumProvider, Etherscan envelope)
- src/src/providers/solana.ts       (SolanaProvider)
- src/unnamed/part_004              (EthereumAdapter / SolanaAdapter)
- src/src/index.ts                  (address validation / normalization)
- src/src/client.ts                 (BlockchainSDK facade)
- src/src/cache/index.ts            (TransactionCacheKeyGenerator / TransactionCache)
- src/src/types/pagination.ts       (pagination types, error classes)

Machine integers are modelled as Nat (all quantities involved are
nonnegative integers in the source paths under study); the rate limiter's
fractional token counts and millisecond clock are modelled as Rat.
-/

deriving instance DecidableEq for Except

namespace TrxSdk

/-- Error model, from the error classes in src/src/types/pagination.ts.
Each constructor carries the fields of the corresponding class that the
code under study reads or writes: the message, the validation error's
offending input (its context payload), the rate-limit error's optional
retryAfter (seconds), and the provider error's provider name and status
code. -/
inductive SDKErr where
  | network (message : String)
  | validation (message : String) (offendingInput : String)
  | rateLimit (message : String) (retryAfter : Option Nat)
  | provider (message : String) (providerName : Option String) (statusCode : Option Nat)
  | configuration (message : String)
deriving DecidableEq, Repr

/-- Retry configuration, from RetryConfig in src/src/utils/retry.ts
(all fields resolved against DEFAULT_RETRY_CONFIG, as `Required`). -/
structure RetryConfig where
  maxRetries : Nat
  initialDelay : Nat
  maxDelay : Nat
  backoffMultiplier : Nat
  retryableStatusCodes : List Nat
deriving DecidableEq, Repr

/-- DEFAULT_RETRY_CONFIG from src/src/utils/retry.ts. -/
def DEFAULT_RETRY_CONFIG : RetryConfig :=
  { maxRetries := 3
    initialDelay := 1000
    maxDelay := 10000
    backoffMultiplier := 2
    retryableStatusCodes := [408, 429, 500, 502, 503, 504] }

/-- calculateDelay from src/src/utils/retry.ts: initialDelay multiplied by
backoffMultiplier to the power attempt, capped at maxDelay. -/
def calculateDelay (attempt : Nat) (config : RetryConfig) : Nat :=
  min (config.initialDelay * config.backoffMultiplier ^ attempt) config.maxDelay

/-- isRetryableError from src/src/utils/retry.ts. NetworkError and
RateLimitError are retryable; everything else (including ProviderError,
whatever its status code) returns false: the source never consults
config.retryableStatusCodes. -/
def isRetryableError (error : SDKErr) (_config : RetryConfig) : Bool :=
  match error with
  | SDKErr.network _ => true
  | SDKErr.rateLimit _ _ => true
  | _ => false

/-- The delay chosen in the body of retryWithBackoff (lines 98-104 of
src/src/utils/retry.ts): calculateDelay, overridden by
retryAfter * 1000 when the error is a RateLimitError whose retryAfter is
truthy (present and nonzero). -/
def retryDelay (error : SDKErr) (attempt : Nat) (config : RetryConfig) : Nat :=
  match error with
  | SDKErr.rateLimit _ (some ra) =>
      if ra ≠ 0 then ra * 1000 else calculateDelay attempt config
  | _ => calculateDelay attempt config

/-- The retry loop of retryWithBackoff. The operation is modelled as a
function from the 0-indexed invocation number to its outcome. `remaining`
is maxRetries minus the current attempt counter (the loop runs while
attempt is at most maxRetries and breaks when attempt reaches maxRetries
after a retryable failure). Returns the propagated outcome, the number of
invocations of the operation, and the list of delays waited between
attempts. -/
def retryAux (fn : Nat → Except SDKErr α) (config : RetryConfig) :
    (remaining attempt : Nat) → Except SDKErr α × Nat × List Nat
  | 0, attempt =>
    -- attempt = maxRetries: a failure here is thrown directly when
    -- non-retryable, or rethrown as lastError after the break when
    -- retryable; either way it propagates unchanged after 1 invocation.
    match fn attempt with
    | Except.ok v => (Except.ok v, 1, [])
    | Except.error e => (Except.error e, 1, [])
  | r + 1, attempt =>
    match fn attempt with
    | Except.ok v => (Except.ok v, 1, [])
    | Except.error e =>
      if isRetryableError e config then
        let rest := retryAux fn config r (attempt + 1)
        (rest.1, rest.2.1 + 1, retryDelay e attempt config :: rest.2.2)
      else (Except.error e, 1, [])

/-- retryWithBackoff from src/src/utils/retry.ts, as a pure function of
the per-invocation outcomes. -/
def retryWithBackoff (fn : Nat → Except SDKErr α) (config : RetryConfig) :
    Except SDKErr α × Nat × List Nat :=
  retryAux fn config config.maxRetries 0

/-- Unfolding equation for retryAux at remaining = 0 on a failure. -/
lemma retryAux_zero_error (fn : Nat → Except SDKErr α) (config : RetryConfig)
    (attempt : Nat) (e : SDKErr) (hf : fn attempt = Except.error e) :
    retryAux fn config 0 attempt = (Except.error e, 1, []) := by
  simp [retryAux, hf]

/-- Unfolding equation for retryAux at remaining = r + 1 on a retryable
failure. -/
lemma retryAux_succ_retryable (fn : Nat → Except SDKErr α) (config : RetryConfig)
    (r attempt : Nat) (e : SDKErr) (hf : fn attempt = Except.error e)
    (hr : isRetryableError e config = true) :
    retryAux fn config (r + 1) attempt
      = ((retryAux fn config r (attempt + 1)).1,
         (retryAux fn config r (attempt + 1)).2.1 + 1,
         retryDelay e attempt config :: (retryAux fn config r (attempt + 1)).2.2) := by
  simp [retryAux, hf, hr]

/-- Unfolding equation for retryAux at remaining = r + 1 on a
non-retryable failure. -/
lemma retryAux_succ_nonretryable (fn : Nat → Except SDKErr α) (config : RetryConfig)
    (r attempt : Nat) (e : SDKErr) (hf : fn attempt = Except.error e)
    (hr : isRetryableError e config = false) :
    retryAux fn config (r + 1) attempt = (Except.error e, 1, []) := by
  simp [retryAux, hf, hr]

/-- Unfolding equation for retryAux on a success. -/
lemma retryAux_ok (fn : Nat → Except SDKErr α) (config : RetryConfig)
    (remaining attempt : Nat) (v : α) (hf : fn attempt = Except.ok v) :
    retryAux fn config remaining attempt = (Except.ok v, 1, []) := by
  cases remaining <;> simp [retryAux, hf]

/-- Helper: if every invocation fails with a retryable error, the loop
runs remaining + 1 invocations and propagates the failure of the last
invocation unchanged. -/
lemma retryAux_all_retryable (fn : Nat → Except SDKErr α) (config : RetryConfig)
    (h : ∀ i, ∃ e, fn i = Except.error e ∧ isRetryableError e config = true) :
    ∀ remaining attempt, ∃ e, fn (attempt + remaining) = Except.error e ∧
      (retryAux fn config remaining attempt).1 = Except.error e ∧
      (retryAux fn config remaining attempt).2.1 = remaining + 1 := by
  intro remaining
  induction remaining with
  | zero =>
    intro attempt
    obtain ⟨e, he, hr⟩ := h attempt
    exact ⟨e, by simpa using he,
      by rw [retryAux_zero_error fn config attempt e he],
      by rw [retryAux_zero_error fn config attempt e he]⟩
  | succ n ih =>
    intro attempt
    obtain ⟨e, he, hr⟩ := h attempt
    obtain ⟨e2, he2, hres, hcount⟩ := ih (attempt + 1)
    refine ⟨e2, ?_, ?_, ?_⟩
    · rw [← he2]; congr 1; omega
    · rw [retryAux_succ_retryable fn config n attempt e he hr]
      exact hres
    · rw [retryAux_succ_retryable fn config n attempt e he hr]
      simpa using hcount

/-- Helper: every entry of the delay list corresponds to a retryable
failure of the invocation with the same index, and equals the delay the
loop body computes for it. -/
lemma retryAux_delays (fn : Nat → Except SDKErr α) (config : RetryConfig) :
    ∀ remaining attempt k (hk : k < (retryAux fn config remaining attempt).2.2.length),
      ∃ e, fn (attempt + k) = Except.error e ∧
        (retryAux fn config remaining attempt).2.2.get ⟨k, hk⟩
          = retryDelay e (attempt + k) config := by
  intro remaining
  induction remaining with
  | zero =>
    intro attempt k hk
    exfalso
    revert hk
    match hf : fn attempt with
    | Except.ok v => rw [retryAux_ok fn config 0 attempt v hf]; simp
    | Except.error e => rw [retryAux_zero_error fn config attempt e hf]; simp
  | succ n ih =>
    intro attempt k hk
    revert hk
    match hf : fn attempt with
    | Except.ok v => rw [retryAux_ok fn config (n + 1) attempt v hf]; simp
    | Except.error e =>
      by_cases hr : isRetryableError e config = true
      · rw [retryAux_succ_retryable fn config n attempt e hf hr]
        intro hk
        match k with
        | 0 => exact ⟨e, by simpa using hf, rfl⟩
        | k + 1 =>
          obtain ⟨e2, he2, hget⟩ := ih (attempt + 1) k (by simpa using hk)
          refine ⟨e2, ?_, ?_⟩
          · rw [← he2]; congr 1; omega
          · simpa [Nat.add_assoc, Nat.add_comm 1 k] using hget
      · rw [retryAux_succ_nonretryable fn config n attempt e hf
          (by simpa using hr)]
        simp

/-- C1: according to the claim, a provider error whose status code is in
the configured retryableStatusCodes set should be retried. The code never
retries provider errors: isRetryableError ignores retryableStatusCodes
(despite the config field's documentation and the comment promising to
handle status codes in the retry function). At the failing input — an
operation that always fails with a ProviderError carrying status code
500, which is in the default retryable set — retryWithBackoff performs
exactly one invocation and surfaces the error with zero retries. -/
theorem retry_provider_error_never_retried :
    500 ∈ DEFAULT_RETRY_CONFIG.retryableStatusCodes ∧
    retryWithBackoff
        (fun _ => (Except.error
          (SDKErr.provider "server exploded" (some "Etherscan") (some 500)) :
            Except SDKErr Unit))
        DEFAULT_RETRY_CONFIG
      = (Except.error (SDKErr.provider "server exploded" (some "Etherscan") (some 500)),
          1, []) := by
  exact ⟨by decide, rfl⟩

/-- C2: retryWithBackoff invokes the operation exactly once before
propagating a failure that is non-retryable on the first invocation; for
an operation that fails with a retryable error on every invocation it
invokes the operation exactly maxRetries + 1 times and propagates the
last failure unchanged. -/
theorem retryWithBackoff_attempt_counts (fn : Nat → Except SDKErr α)
    (config : RetryConfig) :
    (∀ e, fn 0 = Except.error e → isRetryableError e config = false →
      retryWithBackoff fn config = (Except.error e, 1, [])) ∧
    ((∀ i, ∃ e, fn i = Except.error e ∧ isRetryableError e config = true) →
      ∃ e, fn config.maxRetries = Except.error e ∧
        (retryWithBackoff fn config).1 = Except.error e ∧
        (retryWithBackoff fn config).2.1 = config.maxRetries + 1) := by
  constructor
  · intro e he hnr
    unfold retryWithBackoff
    match hmr : config.maxRetries with
    | 0 => rw [retryAux_zero_error fn config 0 e he]
    | m + 1 => rw [retryAux_succ_nonretryable fn config m 0 e he hnr]
  · intro h
    obtain ⟨e, he, hres, hcount⟩ :=
      retryAux_all_retryable fn config h config.maxRetries 0
    exact ⟨e, by simpa using he, hres, hcount⟩

/-- C2 witness: with the default configuration (maxRetries = 3) and an
operation that always fails with a timeout, retryWithBackoff performs
exactly 4 invocations; an operation failing with a ValidationError
surfaces after exactly 1 invocation. -/
theorem retryWithBackoff_attempt_counts_witness :
    (∀ e, (fun (_ : Nat) => (Except.error (SDKErr.validation "bad input" "x") :
          Except SDKErr Unit)) 0 = Except.error e →
        isRetryableError e DEFAULT_RETRY_CONFIG = false →
        retryWithBackoff
          (fun (_ : Nat) => (Except.error (SDKErr.validation "bad input" "x") :
            Except SDKErr Unit)) DEFAULT_RETRY_CONFIG = (Except.error e, 1, [])) ∧
    ((∀ i, ∃ e, (fun (_ : Nat) => (Except.error (SDKErr.network "timeout") :
          Except SDKErr Unit)) i = Except.error e ∧
        isRetryableError e DEFAULT_RETRY_CONFIG = true) →
      ∃ e, (fun (_ : Nat) => (Except.error (SDKErr.network "timeout") :
          Except SDKErr Unit)) DEFAULT_RETRY_CONFIG.maxRetries = Except.error e ∧
        (retryWithBackoff (fun (_ : Nat) =>
          (Except.error (SDKErr.network "timeout") : Except SDKErr Unit))
            DEFAULT_RETRY_CONFIG).1 = Except.error e ∧
        (retryWithBackoff (fun (_ : Nat) =>
          (Except.error (SDKErr.network "timeout") : Except SDKErr Unit))
            DEFAULT_RETRY_CONFIG).2.1 = DEFAULT_RETRY_CONFIG.maxRetries + 1) := by
  have h1 := retryWithBackoff_attempt_counts
    (fun (_ : Nat) => (Except.error (SDKErr.validation "bad input" "x") :
      Except SDKErr Unit)) DEFAULT_RETRY_CONFIG
  have h2 := retryWithBackoff_attempt_counts
    (fun (_ : Nat) => (Except.error (SDKErr.network "timeout") :
      Except SDKErr Unit)) DEFAULT_RETRY_CONFIG
  exact ⟨h1.1, h2.2⟩

/-- The backoff formula as the (amended) spec states it: the delay before
retry k is initialDelay times backoffMultiplier to the power k, capped at
maxDelay; except that a rate-limit failure carrying a nonzero
server-specified retry-after duration (in seconds) overrides the
computed delay with that duration converted to milliseconds. -/
def specBackoffDelay (error : SDKErr) (k : Nat) (config : RetryConfig) : Nat :=
  match error with
  | SDKErr.rateLimit _ (some ra) =>
      if ra ≠ 0 then ra * 1000
      else min (config.initialDelay * config.backoffMultiplier ^ k) config.maxDelay
  | _ => min (config.initialDelay * config.backoffMultiplier ^ k) config.maxDelay

/-- C3 counterexample: the claim as stated says any rate-limit error
carrying a server-specified retry-after duration overrides the computed
backoff delay with that duration. With retryAfter = 0 (a carried
duration of zero seconds, falsy in the source's truthiness test) the code
waits the computed backoff delay of 1000 ms, not the carried duration of
0 ms. -/
theorem retry_retryAfter_zero_counterexample :
    (retryWithBackoff
        (fun _ => (Except.error (SDKErr.rateLimit "slow down" (some 0)) :
          Except SDKErr Unit))
        { maxRetries := 1, initialDelay := 1000, maxDelay := 10000,
          backoffMultiplier := 2, retryableStatusCodes := [] }).2.2 = [1000]
    ∧ (1000 : Nat) ≠ 0 * 1000 := by
  exact ⟨rfl, by decide⟩

/-- C3 (amended): every delay waited by retryWithBackoff before retry k
equals min(initialDelay × backoffMultiplier^k, maxDelay), except when the
failure at attempt k is a rate-limit error carrying a nonzero
server-specified retry-after duration, in which case that duration
(converted to milliseconds) replaces the computed backoff delay. -/
theorem retryWithBackoff_delay_formula (fn : Nat → Except SDKErr α)
    (config : RetryConfig) (k : Nat)
    (hk : k < (retryWithBackoff fn config).2.2.length) :
    ∃ e, fn k = Except.error e ∧
      (retryWithBackoff fn config).2.2.get ⟨k, hk⟩ = specBackoffDelay e k config := by
  obtain ⟨e, he, hget⟩ := retryAux_delays fn config config.maxRetries 0 k hk
  refine ⟨e, by simpa using he, ?_⟩
  show (retryAux fn config config.maxRetries 0).2.2.get ⟨k, hk⟩ = specBackoffDelay e k config
  rw [hget]
  cases e with
  | rateLimit m ra =>
    cases ra <;> simp [retryDelay, specBackoffDelay, calculateDelay]
  | network m => simp [retryDelay, specBackoffDelay, calculateDelay]
  | validation m o => simp [retryDelay, specBackoffDelay, calculateDelay]
  | provider m p s => simp [retryDelay, specBackoffDelay, calculateDelay]
  | configuration m => simp [retryDelay, specBackoffDelay, calculateDelay]

/-- C3 witness: an operation that always times out under maxRetries = 2,
initialDelay = 1000, multiplier = 2 waits 2000 ms before retry 1. -/
theorem retryWithBackoff_delay_formula_witness :
    ∃ e, (fun (_ : Nat) => (Except.error (SDKErr.network "timeout") :
        Except SDKErr Unit)) 1 = Except.error e ∧
      (retryWithBackoff (fun (_ : Nat) =>
          (Except.error (SDKErr.network "timeout") : Except SDKErr Unit))
          { maxRetries := 2, initialDelay := 1000, maxDelay := 10000,
            backoffMultiplier := 2, retryableStatusCodes := [] }).2.2.get
        ⟨1, by decide⟩
        = specBackoffDelay e 1
            { maxRetries := 2, initialDelay := 1000, maxDelay := 10000,
              backoffMultiplier := 2, retryableStatusCodes := [] } := by
  exact retryWithBackoff_delay_formula
    (fun (_ : Nat) => (Except.error (SDKErr.network "timeout") : Except SDKErr Unit))
    { maxRetries := 2, initialDelay := 1000, maxDelay := 10000,
      backoffMultiplier := 2, retryableStatusCodes := [] } 1 (by decide)

/-!
RateLimiter (src/unnamed/part_008). Token counts are fractional
(continuous refill), so they are modelled as rationals; the clock
(Date.now(), milliseconds) is modelled as a rational passed to each
operation. Only finite configured capacities are modelled (the source
substitutes Infinity for an absent or zero capacity). -/

/-- RateLimiterConfig from src/unnamed/part_008, with the two window
capacities already resolved to finite values. -/
structure RateLimiterConfig where
  requestsPerSecond : ℚ
  requestsPerMinute : ℚ
  enabled : Bool
deriving DecidableEq, Repr

/-- The token-bucket fields of the RateLimiter class: the two token
counts and their last-refill timestamps. -/
structure RateLimiterState where
  secondTokens : ℚ
  secondLastRefill : ℚ
  minuteTokens : ℚ
  minuteLastRefill : ℚ
deriving DecidableEq, Repr

/-- The constructor's bucket initialization: both buckets start full,
both last-refill stamps at the construction time. -/
def RateLimiter.initState (config : RateLimiterConfig) (now : ℚ) : RateLimiterState :=
  ⟨config.requestsPerSecond, now, config.requestsPerMinute, now⟩

/-- refillTokens: each bucket refills fully once a whole window has
elapsed since its last refill (resetting the stamp), else continuously
at rate capacity / window-length since the last refill, capped at
capacity (the stamp is left unchanged in that branch, as in the source). -/
def RateLimiter.refillTokens (config : RateLimiterConfig) (now : ℚ)
    (s : RateLimiterState) : RateLimiterState :=
  let sec : ℚ × ℚ :=
    if 1 ≤ (now - s.secondLastRefill) / 1000 then
      (config.requestsPerSecond, now)
    else
      (min config.requestsPerSecond
        (s.secondTokens + (now - s.secondLastRefill) / 1000 * config.requestsPerSecond),
       s.secondLastRefill)
  let minu : ℚ × ℚ :=
    if 1 ≤ (now - s.minuteLastRefill) / 60000 then
      (config.requestsPerMinute, now)
    else
      (min config.requestsPerMinute
        (s.minuteTokens + (now - s.minuteLastRefill) / 60000 * config.requestsPerMinute),
       s.minuteLastRefill)
  ⟨sec.1, sec.2, minu.1, minu.2⟩

/-- consumeTokens: a no-op when disabled, else one token is taken from
each bucket, floored at zero. -/
def RateLimiter.consumeTokens (config : RateLimiterConfig)
    (s : RateLimiterState) : RateLimiterState :=
  if config.enabled = false then s
  else
    { s with
      secondTokens := max 0 (s.secondTokens - 1)
      minuteTokens := max 0 (s.minuteTokens - 1) }

/-- canMakeRequest: refills, then both buckets must hold at least one
token. Returns the admission verdict together with the refilled state
(the source mutates in place). -/
def RateLimiter.canMakeRequest (config : RateLimiterConfig) (now : ℚ)
    (s : RateLimiterState) : Bool × RateLimiterState :=
  if config.enabled = false then (true, s)
  else
    let s2 := RateLimiter.refillTokens config now s
    (decide (1 ≤ s2.secondTokens) && decide (1 ≤ s2.minuteTokens), s2)

/-- tryAcquire: a disabled limiter admits unconditionally without
touching the buckets; otherwise admission requires both buckets to hold
a token (after refill) and consumes one from each. -/
def RateLimiter.tryAcquire (config : RateLimiterConfig) (now : ℚ)
    (s : RateLimiterState) : Bool × RateLimiterState :=
  if config.enabled = false then (true, s)
  else
    let c := RateLimiter.canMakeRequest config now s
    if c.1 then (true, RateLimiter.consumeTokens config c.2)
    else (false, c.2)

/-- The primitive bucket mutations. Every operation of the class touches
the token counts only through refillTokens and consumeTokens (acquire's
processQueue loop interleaves canMakeRequest — a refill — with
consumeTokens; tryAcquire is refill plus conditional consume), so closing
the state under these steps covers every operation sequence. -/
inductive RateLimiterOp where
  | refill
  | consume
  | tryAcquire

/-- One step: apply an operation at a given clock value. -/
def RateLimiter.step (config : RateLimiterConfig) (now : ℚ)
    (op : RateLimiterOp) (s : RateLimiterState) : RateLimiterState :=
  match op with
  | RateLimiterOp.refill => RateLimiter.refillTokens config now s
  | RateLimiterOp.consume => RateLimiter.consumeTokens config s
  | RateLimiterOp.tryAcquire => (RateLimiter.tryAcquire config now s).2

/-- Run a timed trace of operations. -/
def RateLimiter.runOps (config : RateLimiterConfig) :
    List (ℚ × RateLimiterOp) → RateLimiterState → RateLimiterState
  | [], s => s
  | (t, op) :: rest, s => RateLimiter.runOps config rest (RateLimiter.step config t op s)

/-- Both token counts lie between zero and their configured capacity. -/
def TokensInRange (config : RateLimiterConfig) (s : RateLimiterState) : Prop :=
  0 ≤ s.secondTokens ∧ s.secondTokens ≤ config.requestsPerSecond ∧
  0 ≤ s.minuteTokens ∧ s.minuteTokens ≤ config.requestsPerMinute

/-- Invariant carried through the trace: the token bounds, plus the fact
that both last-refill stamps are no later than the current clock. -/
def RateLimiterInv (config : RateLimiterConfig) (t : ℚ) (s : RateLimiterState) : Prop :=
  TokensInRange config s ∧ s.secondLastRefill ≤ t ∧ s.minuteLastRefill ≤ t

lemma refillTokens_inv (config : RateLimiterConfig) (t now : ℚ) (s : RateLimiterState)
    (hsec : 0 ≤ config.requestsPerSecond) (hmin : 0 ≤ config.requestsPerMinute)
    (ht : t ≤ now) (h : RateLimiterInv config t s) :
    RateLimiterInv config now (RateLimiter.refillTokens config now s) := by
  obtain ⟨⟨h1, h2, h3, h4⟩, h5, h6⟩ := h
  unfold RateLimiter.refillTokens
  constructor
  · constructor
    · dsimp only
      split
      · exact hsec
      · refine le_min hsec (add_nonneg h1 (mul_nonneg (div_nonneg ?_ (by norm_num)) hsec))
        linarith
    constructor
    · dsimp only
      split
      · exact le_refl _
      · exact min_le_left _ _
    constructor
    · dsimp only
      split
      · exact hmin
      · refine le_min hmin (add_nonneg h3 (mul_nonneg (div_nonneg ?_ (by norm_num)) hmin))
        linarith
    · dsimp only
      split
      · exact le_refl _
      · exact min_le_left _ _
  constructor
  · dsimp only
    split
    · exact le_refl _
    · linarith
  · dsimp only
    split
    · exact le_refl _
    · linarith

lemma consumeTokens_inv (config : RateLimiterConfig) (t : ℚ) (s : RateLimiterState)
    (hsec : 0 ≤ config.requestsPerSecond) (hmin : 0 ≤ config.requestsPerMinute)
    (h : RateLimiterInv config t s) :
    RateLimiterInv config t (RateLimiter.consumeTokens config s) := by
  obtain ⟨⟨h1, h2, h3, h4⟩, h5, h6⟩ := h
  unfold RateLimiter.consumeTokens
  split
  · exact ⟨⟨h1, h2, h3, h4⟩, h5, h6⟩
  · refine ⟨⟨le_max_left _ _, ?_, le_max_left _ _, ?_⟩, h5, h6⟩
    · exact max_le hsec (by linarith)
    · exact max_le hmin (by linarith)

lemma step_inv (config : RateLimiterConfig) (t now : ℚ) (op : RateLimiterOp)
    (s : RateLimiterState)
    (hsec : 0 ≤ config.requestsPerSecond) (hmin : 0 ≤ config.requestsPerMinute)
    (ht : t ≤ now) (h : RateLimiterInv config t s) :
    RateLimiterInv config now (RateLimiter.step config now op s) := by
  cases op with
  | refill => exact refillTokens_inv config t now s hsec hmin ht h
  | consume =>
    refine consumeTokens_inv config now s hsec hmin ?_
    obtain ⟨hr, h5, h6⟩ := h
    exact ⟨hr, le_trans h5 ht, le_trans h6 ht⟩
  | tryAcquire =>
    have hnow : RateLimiterInv config now s := by
      obtain ⟨hr, h5, h6⟩ := h
      exact ⟨hr, le_trans h5 ht, le_trans h6 ht⟩
    have hrf := refillTokens_inv config t now s hsec hmin ht h
    by_cases hen : config.enabled = false
    · simpa [RateLimiter.step, RateLimiter.tryAcquire, hen] using hnow
    · simp only [RateLimiter.step, RateLimiter.tryAcquire,
        RateLimiter.canMakeRequest, if_neg hen]
      split
      · exact consumeTokens_inv config now _ hsec hmin hrf
      · exact hrf

/-- C4: starting from a freshly constructed limiter, along every trace of
bucket operations (refill, consume, tryAcquire — the primitives through
which acquire and tryAcquire mutate the buckets) with nondecreasing
clock values, both token counts stay between 0 and their configured
capacity. -/
theorem rateLimiter_tokens_in_range (config : RateLimiterConfig)
    (hsec : 0 ≤ config.requestsPerSecond) (hmin : 0 ≤ config.requestsPerMinute)
    (t0 : ℚ) (trace : List (ℚ × RateLimiterOp))
    (hmono : List.Chain (· ≤ ·) t0 (trace.map Prod.fst)) :
    TokensInRange config
      (RateLimiter.runOps config trace (RateLimiter.initState config t0)) := by
  suffices h : ∀ (trace : List (ℚ × RateLimiterOp)) (t : ℚ) (s : RateLimiterState),
      RateLimiterInv config t s → List.Chain (· ≤ ·) t (trace.map Prod.fst) →
      TokensInRange config (RateLimiter.runOps config trace s) by
    refine h trace t0 _ ?_ hmono
    exact ⟨⟨hsec, le_refl _, hmin, le_refl _⟩, le_refl _, le_refl _⟩
  intro trace
  induction trace with
  | nil => intro t s hinv _; exact hinv.1
  | cons hd tl ih =>
    intro t s hinv hchain
    rw [List.map_cons, List.chain_cons] at hchain
    exact ih hd.1 (RateLimiter.step config hd.1 hd.2 s)
      (step_inv config t hd.1 hd.2 s hsec hmin hchain.1 hinv) hchain.2

/-- A concrete limiter configuration: the EthereumProvider's
(4 requests per second, 300 per minute, enabled). -/
def rlConfigW : RateLimiterConfig := ⟨4, 300, true⟩

/-- A concrete timed trace of bucket operations. -/
def rlTraceW : List (ℚ × RateLimiterOp) :=
  [(0, RateLimiterOp.tryAcquire), (200, RateLimiterOp.tryAcquire),
   (500, RateLimiterOp.refill), (1500, RateLimiterOp.consume)]

/-- C4 witness: the invariant at the Ethereum limiter configuration on a
concrete trace. -/
theorem rateLimiter_tokens_in_range_witness :
    TokensInRange rlConfigW
      (RateLimiter.runOps rlConfigW rlTraceW (RateLimiter.initState rlConfigW 0)) :=
  rateLimiter_tokens_in_range rlConfigW (by norm_num [rlConfigW])
    (by norm_num [rlConfigW]) 0 rlTraceW
    (by simp only [rlTraceW, List.map_cons, List.map_nil, List.chain_cons,
          List.Chain.nil, and_true]; norm_num)

/-- Repeated immediate tryAcquire: run k calls at a fixed clock value,
collecting the verdicts and the final state. -/
def tryAcquireRun (config : RateLimiterConfig) (now : ℚ) :
    Nat → RateLimiterState → List Bool × RateLimiterState
  | 0, s => ([], s)
  | k + 1, s =>
    let r := RateLimiter.tryAcquire config now s
    let rest := tryAcquireRun config now k r.2
    (r.1 :: rest.1, rest.2)

/-- With no time elapsed since the last refill, refillTokens leaves a
bucket state with natural token counts below capacity unchanged. -/
lemma refillTokens_no_elapse (N M a b : ℕ) (t0 : ℚ) (ha : a ≤ N) (hb : b ≤ M) :
    RateLimiter.refillTokens ⟨(N : ℚ), (M : ℚ), true⟩ t0 ⟨(a : ℚ), t0, (b : ℚ), t0⟩
      = ⟨(a : ℚ), t0, (b : ℚ), t0⟩ := by
  unfold RateLimiter.refillTokens
  norm_num
  exact ⟨ha, hb⟩

/-- One immediate tryAcquire on a fresh-style state: admitted exactly
when both buckets hold at least one token, consuming one from each. -/
lemma tryAcquire_no_elapse (N M a b : ℕ) (t0 : ℚ) (ha : a ≤ N) (hb : b ≤ M) :
    RateLimiter.tryAcquire ⟨(N : ℚ), (M : ℚ), true⟩ t0 ⟨(a : ℚ), t0, (b : ℚ), t0⟩
      = if 1 ≤ a ∧ 1 ≤ b then
          (true, ⟨((a - 1 : ℕ) : ℚ), t0, ((b - 1 : ℕ) : ℚ), t0⟩)
        else (false, ⟨(a : ℚ), t0, (b : ℚ), t0⟩) := by
  have hrefill := refillTokens_no_elapse N M a b t0 ha hb
  by_cases hcond : 1 ≤ a ∧ 1 ≤ b
  · have h1 : (1 : ℚ) ≤ (a : ℚ) := by exact_mod_cast hcond.1
    have h2 : (1 : ℚ) ≤ (b : ℚ) := by exact_mod_cast hcond.2
    have hsa : ((a - 1 : ℕ) : ℚ) = (a : ℚ) - 1 := by
      have h := hcond.1
      push_cast [h]
      ring
    have hsb : ((b - 1 : ℕ) : ℚ) = (b : ℚ) - 1 := by
      have h := hcond.2
      push_cast [h]
      ring
    rw [if_pos hcond]
    simp [RateLimiter.tryAcquire, RateLimiter.canMakeRequest, hrefill,
      RateLimiter.consumeTokens, h1, h2, hsa, hsb]
  · rw [if_neg hcond]
    rcases Decidable.not_and_iff_or_not.1 hcond with h | h
    · have h1 : ¬ (1 : ℚ) ≤ (a : ℚ) := by exact_mod_cast h
      simp [RateLimiter.tryAcquire, RateLimiter.canMakeRequest, hrefill, h1]
    · have h2 : ¬ (1 : ℚ) ≤ (b : ℚ) := by exact_mod_cast h
      simp [RateLimiter.tryAcquire, RateLimiter.canMakeRequest, hrefill, h2]

/-- Running k immediate tryAcquire calls from natural token counts
(a, b) with a ≤ b: the first a calls are admitted (one token consumed
from each bucket apiece), the rest refused, the state unchanged by the
refused calls. -/
lemma tryAcquireRun_no_elapse (N M : ℕ) (t0 : ℚ) :
    ∀ (k a b : ℕ), a ≤ N → b ≤ M → a ≤ b →
      tryAcquireRun ⟨(N : ℚ), (M : ℚ), true⟩ t0 k ⟨(a : ℚ), t0, (b : ℚ), t0⟩
        = (List.replicate (min k a) true ++ List.replicate (k - a) false,
           ⟨((a - min k a : ℕ) : ℚ), t0, ((b - min k a : ℕ) : ℚ), t0⟩) := by
  intro k
  induction k with
  | zero =>
    intro a b ha hb hab
    simp [tryAcquireRun]
  | succ n ih =>
    intro a b ha hb hab
    match a with
    | 0 =>
      have hstep := tryAcquire_no_elapse N M 0 b t0 (Nat.zero_le N) hb
      simp only [show ¬(1 ≤ 0 ∧ 1 ≤ b) from fun h => by omega, if_neg,
        not_false_eq_true] at hstep
      have hrest := ih 0 b (Nat.zero_le N) hb (Nat.zero_le b)
      simp only [tryAcquireRun, hstep, hrest]
      simp [List.replicate_succ]
    | a' + 1 =>
      have hcond : 1 ≤ a' + 1 ∧ 1 ≤ b := ⟨by omega, by omega⟩
      have hstep := tryAcquire_no_elapse N M (a' + 1) b t0 ha hb
      rw [if_pos hcond] at hstep
      have hrest := ih a' (b - 1) (by omega) (by omega) (by omega)
      simp only [tryAcquireRun, hstep, Nat.add_sub_cancel, hrest]
      refine Prod.ext ?_ ?_
      · simp only
        rw [Nat.succ_min_succ, Nat.succ_sub_succ, List.replicate_succ]
        rfl
      · simp only
        congr 2 <;> omega

/-- C5: a freshly constructed enabled limiter with integer short-window
capacity N ≥ 1 and long-window capacity M ≥ N, exercised with k immediate
tryAcquire calls (no time elapsing): the first min(k, N) calls return
true and the remaining k - N return false; each admitted call consumed
exactly one token from each bucket (after k calls the buckets hold
N - min(k, N) and M - min(k, N)); and a disabled limiter's tryAcquire
always returns true and leaves the state untouched. -/
theorem rateLimiter_tryAcquire_burst (N M k : ℕ) (hN : 1 ≤ N) (hNM : N ≤ M) (t0 : ℚ) :
    (tryAcquireRun ⟨(N : ℚ), (M : ℚ), true⟩ t0 k
        (RateLimiter.initState ⟨(N : ℚ), (M : ℚ), true⟩ t0)).1
      = List.replicate (min k N) true ++ List.replicate (k - N) false
    ∧ (tryAcquireRun ⟨(N : ℚ), (M : ℚ), true⟩ t0 k
        (RateLimiter.initState ⟨(N : ℚ), (M : ℚ), true⟩ t0)).2.secondTokens
      = ((N - min k N : ℕ) : ℚ)
    ∧ (tryAcquireRun ⟨(N : ℚ), (M : ℚ), true⟩ t0 k
        (RateLimiter.initState ⟨(N : ℚ), (M : ℚ), true⟩ t0)).2.minuteTokens
      = ((M - min k N : ℕ) : ℚ)
    ∧ ∀ (config : RateLimiterConfig) (now : ℚ) (s : RateLimiterState),
        config.enabled = false → RateLimiter.tryAcquire config now s = (true, s) := by
  have hrun := tryAcquireRun_no_elapse N M t0 k N M (le_refl N) (le_refl M) hNM
  have hinit : RateLimiter.initState ⟨(N : ℚ), (M : ℚ), true⟩ t0
      = ⟨(N : ℚ), t0, (M : ℚ), t0⟩ := rfl
  refine ⟨?_, ?_, ?_, ?_⟩
  · rw [hinit, hrun]
  · rw [hinit, hrun]
  · rw [hinit, hrun]
  · intro config now s hdis
    simp [RateLimiter.tryAcquire, hdis]

/-- C5 witness: N = 2, M = 3, k = 4 immediate calls — the verdicts are
true, true, false, false and both buckets end one admission short of
empty relative to capacity. -/
theorem rateLimiter_tryAcquire_burst_witness :
    (tryAcquireRun ⟨(2 : ℚ), (3 : ℚ), true⟩ 0 4
        (RateLimiter.initState ⟨(2 : ℚ), (3 : ℚ), true⟩ 0)).1
      = List.replicate (min 4 2) true ++ List.replicate (4 - 2) false
    ∧ (tryAcquireRun ⟨(2 : ℚ), (3 : ℚ), true⟩ 0 4
        (RateLimiter.initState ⟨(2 : ℚ), (3 : ℚ), true⟩ 0)).2.secondTokens
      = ((2 - min 4 2 : ℕ) : ℚ)
    ∧ (tryAcquireRun ⟨(2 : ℚ), (3 : ℚ), true⟩ 0 4
        (RateLimiter.initState ⟨(2 : ℚ), (3 : ℚ), true⟩ 0)).2.minuteTokens
      = ((3 - min 4 2 : ℕ) : ℚ)
    ∧ ∀ (config : RateLimiterConfig) (now : ℚ) (s : RateLimiterState),
        config.enabled = false → RateLimiter.tryAcquire config now s = (true, s) :=
  rateLimiter_tryAcquire_burst 2 3 4 (by norm_num) (by norm_num) 0

/-!
Unified data model (src/src/types/transaction.ts, src/src/types/pagination.ts).
-/

/-- The Network enum (src/src/types/transaction.ts). -/
inductive Network where
  | ethereumMainnet
  | solanaMainnet
deriving DecidableEq, Repr

/-- The enum's string values, used as cache-key components. -/
def Network.toStringValue : Network → String
  | Network.ethereumMainnet => "ethereum-mainnet"
  | Network.solanaMainnet => "solana-mainnet"

/-- TransactionStatus enum. -/
inductive TransactionStatus where
  | success
  | failed
  | pending
deriving DecidableEq, Repr

/-- PaginationOptions (src/src/types/pagination.ts). -/
structure PaginationOptions where
  limit : Option Nat := none
  page : Option Nat := none
  cursor : Option String := none
  startTime : Option Nat := none
  endTime : Option Nat := none
deriving DecidableEq, Repr

/-- PaginationMetadata (src/src/types/pagination.ts). -/
structure PaginationMetadata where
  total : Option Nat := none
  page : Option Nat := none
  totalPages : Option Nat := none
  nextCursor : Option String := none
  hasMore : Bool
deriving DecidableEq, Repr

/-- PaginatedResponse (src/src/types/pagination.ts). -/
structure PaginatedResponse (α : Type) where
  data : List α
  pagination : PaginationMetadata
deriving DecidableEq, Repr

/-- EthereumTransaction (src/src/types/transaction.ts). The source's
`from` and `to` fields are named fromAddress and toAddress here because
both words are reserved in Lean. -/
structure EthereumTransaction where
  network : Network
  hash : String
  blockNumber : Nat
  timestamp : Nat
  status : TransactionStatus
  fromAddress : String
  toAddress : Option String
  value : String
  gasPrice : String
  gasLimit : String
  gasUsed : String
  fee : Option String
  nonce : Nat
  input : Option String
  isContractInteraction : Bool
deriving DecidableEq, Repr

/-- SolanaInstruction (src/src/types/transaction.ts). -/
structure SolanaInstruction where
  programId : String
  data : Option String
  accounts : Option (List String)
deriving DecidableEq, Repr

/-- TokenBalance (src/src/types/transaction.ts). -/
structure TokenBalance where
  accountIndex : Nat
  mint : String
  owner : Option String
  preBalance : String
  postBalance : Option String
deriving DecidableEq, Repr

/-- SolanaTransaction (src/src/types/transaction.ts). -/
structure SolanaTransaction where
  network : Network
  hash : String
  signature : String
  blockNumber : Nat
  slot : Nat
  timestamp : Nat
  status : TransactionStatus
  fee : String
  feePayer : String
  accountKeys : List String
  instructions : List SolanaInstruction
  tokenBalances : Option (List TokenBalance)
deriving DecidableEq, Repr

/-- The discriminated union Transaction = EthereumTransaction |
SolanaTransaction. -/
inductive Transaction where
  | eth (tx : EthereumTransaction)
  | sol (tx : SolanaTransaction)
deriving DecidableEq, Repr

/-!
EthereumProvider (src/unnamed/part_002): the Etherscan envelope handling
and record transformation of getTransactions, as a pure function of the
already-received HTTP response body. The rate-limiter acquire and the
retryWithBackoff wrapper around the HTTP call sit upstream of this logic
and are modelled separately above.
-/

/-- Raw Etherscan transaction record (interface EtherscanTransaction).
The source's `txreceipt_status`, `from` and `to` are named
txreceiptStatus, fromAddress and toAddress here. -/
structure EtherscanTransaction where
  blockNumber : String
  timeStamp : String
  hash : String
  nonce : String
  blockHash : String
  transactionIndex : String
  fromAddress : String
  toAddress : String
  value : String
  gas : String
  gasPrice : String
  isError : String
  txreceiptStatus : String
  input : String
  contractAddress : String
  cumulativeGasUsed : String
  gasUsed : String
  confirmations : String
  methodId : Option String := none
  functionName : Option String := none
deriving DecidableEq, Repr

/-- The Etherscan envelope's result field: either an array of raw
records or a string (error/status text). -/
inductive EtherscanResult where
  | records (txs : List EtherscanTransaction)
  | str (s : String)
deriving DecidableEq, Repr

/-- EtherscanTransactionResponse envelope. -/
structure EtherscanTransactionResponse where
  status : String
  message : String
  result : EtherscanResult
deriving DecidableEq, Repr

/-- JavaScript `x || d` on an optional number: an absent or zero value
falls back to the default. -/
def jsOrDefaultNat (o : Option Nat) (d : Nat) : Nat :=
  match o with
  | some v => if v = 0 then d else v
  | none => d

/-- JavaScript parseInt on the decimal digit strings Etherscan returns,
modelled as a decimal parse (0 for a non-numeric string; none of the
properties under study inspect these values). -/
def jsParseNat (s : String) : Nat := (s.toNat?).getD 0

/-- Substring search: does the pattern occur as a prefix of some suffix. -/
def containsSublist (pattern : List Char) : List Char → Bool
  | [] => List.isPrefixOf pattern []
  | c :: rest => List.isPrefixOf pattern (c :: rest) || containsSublist pattern rest

/-- String.prototype.includes: substring test. -/
def strContains (s pattern : String) : Bool :=
  containsSublist pattern.toList s.toList

/-- transformTransaction of EthereumProvider: maps a raw Etherscan
record into the unified Ethereum transaction shape (empty strings are
falsy in the source's truthiness tests). -/
def EthereumProvider.transformTransaction (tx : EtherscanTransaction) :
    EthereumTransaction :=
  let timestamp := jsParseNat tx.timeStamp * 1000
  let isError := tx.isError = "1" ∨ tx.txreceiptStatus = "0"
  let status := if isError then TransactionStatus.failed else TransactionStatus.success
  { network := Network.ethereumMainnet
    hash := tx.hash
    blockNumber := jsParseNat tx.blockNumber
    timestamp := timestamp
    status := status
    fromAddress := tx.fromAddress
    toAddress := if tx.toAddress = "" then none else some tx.toAddress
    value := tx.value
    gasPrice := tx.gasPrice
    gasLimit := tx.gas
    gasUsed := tx.gasUsed
    fee :=
      if tx.gasUsed ≠ "" ∧ tx.gasPrice ≠ "" then
        some (toString (jsParseNat tx.gasUsed * jsParseNat tx.gasPrice))
      else none
    nonce := jsParseNat tx.nonce
    input := if tx.input = "" then none else some tx.input
    isContractInteraction :=
      tx.contractAddress ≠ "" ∨ (tx.input ≠ "" ∧ tx.input ≠ "0x") }

/-- getTransactions of EthereumProvider (lines 125-205 of the source),
as a pure function of the received envelope: the status="0" handling,
the array check, the record transformation, and the full-page hasMore
heuristic. -/
def EthereumProvider.getTransactionsPure (resp : EtherscanTransactionResponse)
    (options : PaginationOptions) :
    Except SDKErr (PaginatedResponse EthereumTransaction) :=
  let limit := jsOrDefaultNat options.limit 100
  let page := jsOrDefaultNat options.page 1
  match resp.result with
  | EtherscanResult.str s =>
    if resp.status = "0" then
      if strContains s "No transactions found" then
        Except.ok
          { data := []
            pagination :=
              { hasMore := false, page := some page, totalPages := some 0,
                total := some 0 } }
      else
        Except.error
          (SDKErr.provider ("Etherscan API error: " ++ s) (some "Etherscan") none)
    else
      Except.error
        (SDKErr.provider "Unexpected response format from Etherscan API"
          (some "Etherscan") none)
  | EtherscanResult.records txs =>
    let transactions := txs.map EthereumProvider.transformTransaction
    let hasMore := transactions.length == limit
    let totalPages := if hasMore then none else some page
    Except.ok
      { data := transactions
        pagination :=
          { hasMore := hasMore, page := some page, totalPages := totalPages,
            total := none } }

/-- C6 counterexample: for a status="0" response whose string result is
"Max rate limit reached", the raised provider error's message is the
string prefixed with "Etherscan API error: ", not that string itself as
the claim states. -/
theorem etherscan_error_message_prefixed_counterexample :
    EthereumProvider.getTransactionsPure
        ⟨"0", "NOTOK", EtherscanResult.str "Max rate limit reached"⟩ {}
      = Except.error
          (SDKErr.provider "Etherscan API error: Max rate limit reached"
            (some "Etherscan") none)
    ∧ "Etherscan API error: Max rate limit reached" ≠ "Max rate limit reached" := by
  exact ⟨by decide, by decide⟩

/-- C6 (amended): a status="0" response with a string result containing
"No transactions found" yields an empty page with hasMore=false and is
not an error; a status="0" response with any other string result raises
a provider error carrying the provider name and a message consisting of
"Etherscan API error: " followed by that string. -/
theorem etherscan_status0_handling (resp : EtherscanTransactionResponse)
    (options : PaginationOptions) (s : String)
    (hstatus : resp.status = "0") (hres : resp.result = EtherscanResult.str s) :
    (strContains s "No transactions found" = true →
      EthereumProvider.getTransactionsPure resp options
        = Except.ok
            { data := []
              pagination :=
                { hasMore := false, page := some (jsOrDefaultNat options.page 1),
                  totalPages := some 0, total := some 0 } }) ∧
    (strContains s "No transactions found" = false →
      EthereumProvider.getTransactionsPure resp options
        = Except.error
            (SDKErr.provider ("Etherscan API error: " ++ s) (some "Etherscan") none)) := by
  constructor
  · intro hc
    simp [EthereumProvider.getTransactionsPure, hres, hstatus, hc]
  · intro hc
    simp [EthereumProvider.getTransactionsPure, hres, hstatus, hc]

/-- C6 witness: the two branches at concrete envelopes. -/
theorem etherscan_status0_handling_witness :
    (strContains "No transactions found" "No transactions found" = true →
      EthereumProvider.getTransactionsPure
          ⟨"0", "No transactions found",
            EtherscanResult.str "No transactions found"⟩ {}
        = Except.ok
            { data := []
              pagination :=
                { hasMore := false,
                  page := some (jsOrDefaultNat ({} : PaginationOptions).page 1),
                  totalPages := some 0, total := some 0 } }) ∧
    (strContains "No transactions found" "No transactions found" = false →
      EthereumProvider.getTransactionsPure
          ⟨"0", "No transactions found",
            EtherscanResult.str "No transactions found"⟩ {}
        = Except.error
            (SDKErr.provider ("Etherscan API error: " ++ "No transactions found")
              (some "Etherscan") none)) :=
  etherscan_status0_handling
    ⟨"0", "No transactions found", EtherscanResult.str "No transactions found"⟩
    {} "No transactions found" rfl rfl

/-!
SolanaProvider (src/src/providers/solana.ts): getTransactions as a pure
function of the signature page returned by getSignaturesForAddress and
the per-signature results of the getTransaction detail fan-out (one
optional detail record per signature, in the original order). The
rate-limited, retried rpcRequest transport sits upstream of this logic.
-/

/-- SolanaSignatureInfo (getSignaturesForAddress record). The err field
is only ever tested for truthiness (non-null), so it is modelled as an
optional error payload. -/
structure SolanaSignatureInfo where
  signature : String
  slot : Nat
  err : Option String := none
  memo : Option String := none
  blockTime : Option Nat := none
deriving DecidableEq, Repr

/-- uiTokenAmount of a token-balance record. -/
structure UiTokenAmount where
  amount : String
deriving DecidableEq, Repr

/-- Raw token-balance record of getTransaction's meta. -/
structure SolanaRawTokenBalance where
  accountIndex : Nat
  mint : String
  owner : Option String := none
  uiTokenAmount : UiTokenAmount
deriving DecidableEq, Repr

/-- Raw instruction of getTransaction's message. -/
structure SolanaRawInstruction where
  programId : String
  accounts : Option (List Nat) := none
  data : Option String := none
deriving DecidableEq, Repr

/-- message of getTransaction's transaction payload. -/
structure SolanaMessage where
  accountKeys : List String
  instructions : List SolanaRawInstruction
  recentBlockhash : String
deriving DecidableEq, Repr

/-- transaction payload of getTransaction. -/
structure SolanaTxPayload where
  message : SolanaMessage
  signatures : List String
deriving DecidableEq, Repr

/-- meta of getTransaction. -/
structure SolanaMeta where
  err : Option String := none
  fee : Nat
  preBalances : List Nat
  postBalances : List Nat
  preTokenBalances : Option (List SolanaRawTokenBalance) := none
  postTokenBalances : Option (List SolanaRawTokenBalance) := none
deriving DecidableEq, Repr

/-- SolanaTransactionDetails (getTransaction result). -/
structure SolanaTransactionDetails where
  slot : Nat
  transaction : SolanaTxPayload
  meta : SolanaMeta
  blockTime : Option Nat := none
deriving DecidableEq, Repr

/-- transformTransaction of SolanaProvider: null detail yields null (the
record is dropped); otherwise the signature record and detail are merged
into the unified Solana transaction shape. Date.now() (used when
blockTime is absent or zero, both falsy) is passed in as `now`. -/
def SolanaProvider.transformTransaction (now : Nat) (sigInfo : SolanaSignatureInfo)
    (details : Option SolanaTransactionDetails) : Option SolanaTransaction :=
  match details with
  | none => none
  | some d =>
    let status :=
      if sigInfo.err.isSome ∨ d.meta.err.isSome then TransactionStatus.failed
      else TransactionStatus.success
    let timestamp :=
      match sigInfo.blockTime with
      | some bt => if bt ≠ 0 then bt * 1000 else now
      | none => now
    let feePayer := (d.transaction.message.accountKeys.headD "")
    let instructions :=
      d.transaction.message.instructions.map fun ix =>
        { programId := ix.programId
          data := ix.data
          accounts := ix.accounts.map fun idxs =>
            idxs.map fun idx => (d.transaction.message.accountKeys.getD idx "") }
    let tokenBalances :=
      match d.meta.preTokenBalances, d.meta.postTokenBalances with
      | some pre, some post =>
        some (pre.enum.map fun p =>
          { accountIndex := p.2.accountIndex
            mint := p.2.mint
            owner := p.2.owner
            preBalance := p.2.uiTokenAmount.amount
            postBalance := (post.get? p.1).map fun q => q.uiTokenAmount.amount })
      | _, _ => none
    some
      { network := Network.solanaMainnet
        hash := sigInfo.signature
        signature := sigInfo.signature
        blockNumber := sigInfo.slot
        slot := sigInfo.slot
        timestamp := timestamp
        status := status
        fee := toString d.meta.fee
        feePayer := feePayer
        accountKeys := d.transaction.message.accountKeys
        instructions := instructions
        tokenBalances := tokenBalances }

/-- getTransactions of SolanaProvider (lines 214-266 of the source):
empty signature page short-circuits; otherwise each signature is paired
with its detail record by index, unresolvable records are dropped, and
pagination uses the page-full heuristic with the last signature as the
next cursor. -/
def SolanaProvider.getTransactionsPure (now : Nat)
    (signatures : List SolanaSignatureInfo)
    (details : List (Option SolanaTransactionDetails))
    (options : PaginationOptions) : PaginatedResponse SolanaTransaction :=
  let limit := jsOrDefaultNat options.limit 100
  if signatures.isEmpty then
    { data := [], pagination := { hasMore := false, nextCursor := none } }
  else
    let transactions :=
      (signatures.enum.map fun p =>
        SolanaProvider.transformTransaction now p.2 ((details.get? p.1).getD none)
      ).reduceOption
    let hasMore := signatures.length == limit
    let nextCursor :=
      if hasMore then (signatures.getLast?).map (fun sig => sig.signature) else none
    { data := transactions
      pagination := { hasMore := hasMore, nextCursor := nextCursor } }

/-- The effective limit is never zero (JavaScript `options.limit || 100`). -/
lemma jsOrDefaultNat_limit_pos (o : Option Nat) : 0 < jsOrDefaultNat o 100 := by
  match o with
  | none => simp [jsOrDefaultNat]
  | some v =>
    by_cases hv : v = 0 <;> simp [jsOrDefaultNat, hv] <;> omega

/-- The array branch of the Etherscan envelope handling, written out. -/
lemma etherscan_records_result (resp : EtherscanTransactionResponse)
    (options : PaginationOptions) (txs : List EtherscanTransaction)
    (hres : resp.result = EtherscanResult.records txs) :
    EthereumProvider.getTransactionsPure resp options
      = Except.ok
          { data := txs.map EthereumProvider.transformTransaction
            pagination :=
              { hasMore := (txs.map EthereumProvider.transformTransaction).length
                  == jsOrDefaultNat options.limit 100
                page := some (jsOrDefaultNat options.page 1)
                totalPages :=
                  if ((txs.map EthereumProvider.transformTransaction).length
                      == jsOrDefaultNat options.limit 100) = true
                  then none else some (jsOrDefaultNat options.page 1)
                total := none } } := by
  simp [EthereumProvider.getTransactionsPure, hres]

/-- C7: both providers infer hasMore by the full-page heuristic — true
exactly when the number of records the backend returned equals the
effective requested limit; and the JSON-RPC provider sets nextCursor to
the signature of the last record of the page when hasMore is true and
leaves it unset otherwise. -/
theorem providers_pagination_heuristic (resp : EtherscanTransactionResponse)
    (options : PaginationOptions) (txs : List EtherscanTransaction)
    (hres : resp.result = EtherscanResult.records txs)
    (now : Nat) (signatures : List SolanaSignatureInfo)
    (details : List (Option SolanaTransactionDetails))
    (options2 : PaginationOptions) :
    (∃ r, EthereumProvider.getTransactionsPure resp options = Except.ok r ∧
      r.pagination.hasMore = (txs.length == jsOrDefaultNat options.limit 100)) ∧
    (SolanaProvider.getTransactionsPure now signatures details options2).pagination.hasMore
      = (signatures.length == jsOrDefaultNat options2.limit 100) ∧
    (SolanaProvider.getTransactionsPure now signatures details options2).pagination.nextCursor
      = (if signatures.length = jsOrDefaultNat options2.limit 100 then
          (signatures.getLast?).map (fun sig => sig.signature)
        else none) := by
  have hpos := jsOrDefaultNat_limit_pos options2.limit
  refine ⟨?_, ?_, ?_⟩
  · exact ⟨_, etherscan_records_result resp options txs hres,
      by simp [List.length_map]⟩
  · match signatures with
    | [] =>
      have hbeq : (([] : List SolanaSignatureInfo).length
          == jsOrDefaultNat options2.limit 100) = false := by
        rw [beq_eq_false_iff_ne]
        simp only [List.length_nil]
        omega
      simp [SolanaProvider.getTransactionsPure, hbeq]
      omega
    | sig :: rest =>
      simp [SolanaProvider.getTransactionsPure]
  · match signatures with
    | [] =>
      have hne : ([] : List SolanaSignatureInfo).length
          ≠ jsOrDefaultNat options2.limit 100 := by
        simp only [List.length_nil]
        omega
      simp [SolanaProvider.getTransactionsPure, hne]
    | sig :: rest =>
      simp only [SolanaProvider.getTransactionsPure, List.isEmpty_cons,
        Bool.false_eq_true, if_false]
      by_cases hfull : (sig :: rest).length = jsOrDefaultNat options2.limit 100
      · simp [hfull]
      · have hbeq : ((sig :: rest).length == jsOrDefaultNat options2.limit 100)
            = false := by rw [beq_eq_false_iff_ne]; exact hfull
        simp [hfull, hbeq]

/-- A concrete raw Etherscan record. -/
def etherscanTxW : EtherscanTransaction :=
  ⟨"1", "2", "0xabc", "0", "0xb", "0", "0xf", "0xt", "5", "21000",
    "3", "0", "1", "0x", "", "21000", "21000", "9", none, none⟩

/-- A concrete Etherscan envelope carrying one record. -/
def etherscanRespW : EtherscanTransactionResponse :=
  ⟨"1", "OK", EtherscanResult.records [etherscanTxW]⟩

/-- A concrete Solana signature record. -/
def solanaSigW : SolanaSignatureInfo := { signature := "sig1", slot := 5 }

/-- C7 witness: a full Etherscan page of one record at limit 1, and a
Solana page of one signature at limit 1 with its cursor set to that
signature. -/
theorem providers_pagination_heuristic_witness :
    (∃ r, EthereumProvider.getTransactionsPure etherscanRespW { limit := some 1 }
        = Except.ok r ∧
      r.pagination.hasMore
        = ([etherscanTxW].length == jsOrDefaultNat (some 1) 100)) ∧
    (SolanaProvider.getTransactionsPure 7 [solanaSigW] [none]
        { limit := some 1 }).pagination.hasMore
      = ([solanaSigW].length == jsOrDefaultNat (some 1) 100) ∧
    (SolanaProvider.getTransactionsPure 7 [solanaSigW] [none]
        { limit := some 1 }).pagination.nextCursor
      = (if [solanaSigW].length = jsOrDefaultNat (some 1) 100 then
          (([solanaSigW] : List SolanaSignatureInfo).getLast?).map
            (fun sig => sig.signature)
        else none) :=
  providers_pagination_heuristic etherscanRespW { limit := some 1 } [etherscanTxW]
    rfl 7 [solanaSigW] [none] { limit := some 1 }

/-!
Address validation and normalization (src/src/index.ts, the
utils/validation module).
-/

/-- JavaScript String.prototype.toLowerCase on the ASCII strings under
study: character-wise lowercase folding (written over the character list
so that it evaluates in the kernel). -/
def strToLower (s : String) : String := String.mk (s.data.map Char.toLower)

/-- Hex digit test for the Ethereum address regex character class
[a-fA-F0-9]. -/
def isHexDigitChar (c : Char) : Bool :=
  c.isDigit || (decide ('a' ≤ c) && decide (c ≤ 'f')) || (decide ('A' ≤ c) && decide (c ≤ 'F'))

/-- isValidEthereumAddress: the regex 0x followed by exactly 40 hex
characters (an empty or otherwise malformed string fails). -/
def isValidEthereumAddress (address : String) : Bool :=
  match address.toList with
  | '0' :: 'x' :: rest => rest.length == 40 && rest.all isHexDigitChar
  | _ => false

/-- Base58 alphabet test for the character class [1-9A-HJ-NP-Za-km-z]. -/
def isBase58Char (c : Char) : Bool :=
  (decide ('1' ≤ c) && decide (c ≤ '9')) || (decide ('A' ≤ c) && decide (c ≤ 'H')) ||
  (decide ('J' ≤ c) && decide (c ≤ 'N')) || (decide ('P' ≤ c) && decide (c ≤ 'Z')) ||
  (decide ('a' ≤ c) && decide (c ≤ 'k')) || (decide ('m' ≤ c) && decide (c ≤ 'z'))

/-- isValidSolanaPublicKey: 32 to 44 base58 characters. -/
def isValidSolanaPublicKey (publicKey : String) : Bool :=
  decide (32 ≤ publicKey.length) && decide (publicKey.length ≤ 44) &&
  publicKey.toList.all isBase58Char

/-- detectNetwork: Ethereum format first, then Solana, else none. -/
def detectNetwork (address : String) : Option Network :=
  if isValidEthereumAddress address then some Network.ethereumMainnet
  else if isValidSolanaPublicKey address then some Network.solanaMainnet
  else none

/-- validateAddressForNetwork: throws a ValidationError carrying the
offending address when the format check for the given network fails. -/
def validateAddressForNetwork (address : String) (network : Network) :
    Except SDKErr Unit :=
  if address = "" then
    Except.error (SDKErr.validation "Address must be a non-empty string" address)
  else
    match network with
    | Network.ethereumMainnet =>
      if isValidEthereumAddress address then Except.ok ()
      else
        Except.error (SDKErr.validation
          "Invalid Ethereum address format. Expected 0x followed by 40 hexadecimal characters."
          address)
    | Network.solanaMainnet =>
      if isValidSolanaPublicKey address then Except.ok ()
      else
        Except.error (SDKErr.validation
          "Invalid Solana public key format. Expected base58 encoded string (32-44 characters)."
          address)

/-- normalizeEthereumAddress: lowercase folding after validation. -/
def normalizeEthereumAddress (address : String) : Except SDKErr String :=
  if isValidEthereumAddress address then Except.ok (strToLower address)
  else Except.error (SDKErr.validation "Invalid Ethereum address" address)

/-- normalizeSolanaPublicKey: the identity after validation (base58 case
is semantically significant). -/
def normalizeSolanaPublicKey (publicKey : String) : Except SDKErr String :=
  if isValidSolanaPublicKey publicKey then Except.ok publicKey
  else Except.error (SDKErr.validation "Invalid Solana public key" publicKey)

/-!
ChainAdapters (src/unnamed/part_004). The provider is passed as a
function (its getTransactions); each adapter returns its outcome
together with the number of provider invocations, so that "no network
call is made" is expressible.
-/

/-- EthereumAdapter.validateAddress: validateAddressForNetwork wrapped in
try/catch. -/
def EthereumAdapter.validateAddress (address : String) : Bool :=
  match validateAddressForNetwork address Network.ethereumMainnet with
  | Except.ok _ => true
  | Except.error _ => false

/-- SolanaAdapter.validateAddress. -/
def SolanaAdapter.validateAddress (publicKey : String) : Bool :=
  match validateAddressForNetwork publicKey Network.solanaMainnet with
  | Except.ok _ => true
  | Except.error _ => false

/-- EthereumAdapter.applyTimeRangeFilter: strips the time bounds from
the options passed to the provider (Etherscan cannot filter by time). -/
def EthereumAdapter.applyTimeRangeFilter (options : PaginationOptions) :
    PaginationOptions :=
  { limit := options.limit, page := options.page, cursor := options.cursor }

/-- EthereumAdapter.filterTransactions: the post-fetch time-range
filter, both bounds inclusive and optional. -/
def EthereumAdapter.filterTransactions (transactions : List EthereumTransaction)
    (options : PaginationOptions) : List EthereumTransaction :=
  let f1 :=
    match options.startTime with
    | some st => transactions.filter fun tx => decide (st ≤ tx.timestamp)
    | none => transactions
  match options.endTime with
  | some et => f1.filter fun tx => decide (tx.timestamp ≤ et)
  | none => f1

/-- SolanaAdapter.filterTransactions. -/
def SolanaAdapter.filterTransactions (transactions : List SolanaTransaction)
    (options : PaginationOptions) : List SolanaTransaction :=
  let f1 :=
    match options.startTime with
    | some st => transactions.filter fun tx => decide (st ≤ tx.timestamp)
    | none => transactions
  match options.endTime with
  | some et => f1.filter fun tx => decide (tx.timestamp ≤ et)
  | none => f1

/-- EthereumAdapter.getTransactions: validate, normalize (lowercase),
delegate to the provider with time bounds stripped, filter the returned
page, pass the pagination metadata through unchanged. -/
def EthereumAdapter.getTransactions
    (provider : String → PaginationOptions →
      Except SDKErr (PaginatedResponse EthereumTransaction))
    (address : String) (options : PaginationOptions) :
    Except SDKErr (PaginatedResponse EthereumTransaction) × Nat :=
  if EthereumAdapter.validateAddress address = false then
    (Except.error (SDKErr.validation "Invalid Ethereum address format" address), 0)
  else
    match normalizeEthereumAddress address with
    | Except.error e => (Except.error e, 0)
    | Except.ok normalizedAddress =>
      match provider normalizedAddress (EthereumAdapter.applyTimeRangeFilter options) with
      | Except.error e => (Except.error e, 1)
      | Except.ok response =>
        (Except.ok
          { data := EthereumAdapter.filterTransactions response.data options
            pagination := response.pagination }, 1)

/-- SolanaAdapter.getTransactions: validate, normalize (identity),
delegate to the provider with the options unchanged, filter the returned
page, pass the pagination metadata through unchanged. -/
def SolanaAdapter.getTransactions
    (provider : String → PaginationOptions →
      Except SDKErr (PaginatedResponse SolanaTransaction))
    (publicKey : String) (options : PaginationOptions) :
    Except SDKErr (PaginatedResponse SolanaTransaction) × Nat :=
  if SolanaAdapter.validateAddress publicKey = false then
    (Except.error (SDKErr.validation "Invalid Solana public key format" publicKey), 0)
  else
    match normalizeSolanaPublicKey publicKey with
    | Except.error e => (Except.error e, 0)
    | Except.ok normalizedPublicKey =>
      match provider normalizedPublicKey options with
      | Except.error e => (Except.error e, 1)
      | Except.ok response =>
        (Except.ok
          { data := SolanaAdapter.filterTransactions response.data options
            pagination := response.pagination }, 1)

/-- Every survivor of the Ethereum time-range filter satisfies both
bounds. -/
lemma mem_filterTransactions_eth (transactions : List EthereumTransaction)
    (options : PaginationOptions) (tx : EthereumTransaction)
    (h : tx ∈ EthereumAdapter.filterTransactions transactions options) :
    (∀ st, options.startTime = some st → st ≤ tx.timestamp) ∧
    (∀ et, options.endTime = some et → tx.timestamp ≤ et) := by
  constructor
  · intro st hst
    rcases het : options.endTime with _ | et
    · simp only [EthereumAdapter.filterTransactions, hst, het, List.mem_filter,
        decide_eq_true_eq] at h
      exact h.2
    · simp only [EthereumAdapter.filterTransactions, hst, het, List.mem_filter,
        decide_eq_true_eq] at h
      exact h.1.2
  · intro et het
    rcases hst : options.startTime with _ | st
    · simp only [EthereumAdapter.filterTransactions, hst, het, List.mem_filter,
        decide_eq_true_eq] at h
      exact h.2
    · simp only [EthereumAdapter.filterTransactions, hst, het, List.mem_filter,
        decide_eq_true_eq] at h
      exact h.2

/-- Every survivor of the Solana time-range filter satisfies both
bounds. -/
lemma mem_filterTransactions_sol (transactions : List SolanaTransaction)
    (options : PaginationOptions) (tx : SolanaTransaction)
    (h : tx ∈ SolanaAdapter.filterTransactions transactions options) :
    (∀ st, options.startTime = some st → st ≤ tx.timestamp) ∧
    (∀ et, options.endTime = some et → tx.timestamp ≤ et) := by
  constructor
  · intro st hst
    rcases het : options.endTime with _ | et
    · simp only [SolanaAdapter.filterTransactions, hst, het, List.mem_filter,
        decide_eq_true_eq] at h
      exact h.2
    · simp only [SolanaAdapter.filterTransactions, hst, het, List.mem_filter,
        decide_eq_true_eq] at h
      exact h.1.2
  · intro et het
    rcases hst : options.startTime with _ | st
    · simp only [SolanaAdapter.filterTransactions, hst, het, List.mem_filter,
        decide_eq_true_eq] at h
      exact h.2
    · simp only [SolanaAdapter.filterTransactions, hst, het, List.mem_filter,
        decide_eq_true_eq] at h
      exact h.2

/-- A passing adapter validation implies the underlying format check
passed (Ethereum). -/
lemma validateAddress_eth_isValid (address : String)
    (h : EthereumAdapter.validateAddress address = true) :
    isValidEthereumAddress address = true := by
  by_cases hv : isValidEthereumAddress address = true
  · exact hv
  · exfalso
    have hv2 : isValidEthereumAddress address = false := by simpa using hv
    by_cases he : address = "" <;>
      simp [EthereumAdapter.validateAddress, validateAddressForNetwork, he, hv2] at h

/-- A passing adapter validation implies the underlying format check
passed (Solana). -/
lemma validateAddress_sol_isValid (publicKey : String)
    (h : SolanaAdapter.validateAddress publicKey = true) :
    isValidSolanaPublicKey publicKey = true := by
  by_cases hv : isValidSolanaPublicKey publicKey = true
  · exact hv
  · exfalso
    have hv2 : isValidSolanaPublicKey publicKey = false := by simpa using hv
    by_cases he : publicKey = "" <;>
      simp [SolanaAdapter.validateAddress, validateAddressForNetwork, he, hv2] at h

/-- C9: for a valid address whose provider fetch succeeds, every
transaction returned by the adapter satisfies the inclusive startTime
and endTime bounds (when given), and the returned pagination metadata is
exactly the provider's unfiltered-page metadata. -/
theorem adapters_time_range_filter
    (ethProvider : String → PaginationOptions →
      Except SDKErr (PaginatedResponse EthereumTransaction))
    (solProvider : String → PaginationOptions →
      Except SDKErr (PaginatedResponse SolanaTransaction))
    (address publicKey : String) (options : PaginationOptions)
    (presp : PaginatedResponse EthereumTransaction)
    (spresp : PaginatedResponse SolanaTransaction)
    (hv1 : EthereumAdapter.validateAddress address = true)
    (hp1 : ethProvider (strToLower address) (EthereumAdapter.applyTimeRangeFilter options)
      = Except.ok presp)
    (hv2 : SolanaAdapter.validateAddress publicKey = true)
    (hp2 : solProvider publicKey options = Except.ok spresp) :
    (∃ r, EthereumAdapter.getTransactions ethProvider address options
        = (Except.ok r, 1) ∧
      r.pagination = presp.pagination ∧
      ∀ tx ∈ r.data, (∀ st, options.startTime = some st → st ≤ tx.timestamp) ∧
        (∀ et, options.endTime = some et → tx.timestamp ≤ et)) ∧
    (∃ r, SolanaAdapter.getTransactions solProvider publicKey options
        = (Except.ok r, 1) ∧
      r.pagination = spresp.pagination ∧
      ∀ tx ∈ r.data, (∀ st, options.startTime = some st → st ≤ tx.timestamp) ∧
        (∀ et, options.endTime = some et → tx.timestamp ≤ et)) := by
  have hval1 := validateAddress_eth_isValid address hv1
  have hval2 := validateAddress_sol_isValid publicKey hv2
  constructor
  · refine ⟨{ data := EthereumAdapter.filterTransactions presp.data options,
              pagination := presp.pagination }, ?_, rfl, ?_⟩
    · simp [EthereumAdapter.getTransactions, hv1, normalizeEthereumAddress,
        hval1, hp1]
    · intro tx htx
      exact mem_filterTransactions_eth presp.data options tx htx
  · refine ⟨{ data := SolanaAdapter.filterTransactions spresp.data options,
              pagination := spresp.pagination }, ?_, rfl, ?_⟩
    · simp [SolanaAdapter.getTransactions, hv2, normalizeSolanaPublicKey,
        hval2, hp2]
    · intro tx htx
      exact mem_filterTransactions_sol spresp.data options tx htx

/-- A valid Ethereum address (0x plus 40 hex characters). -/
def addrW : String := "0xaaaaaaaaaaaaaaaaaaaaaaaaaaaaaaaaaaaaaaaa"

/-- A valid Solana public key (32 base58 characters). -/
def pkW : String := "AAAAAAAAAAAAAAAAAAAAAAAAAAAAAAAA"

/-- A unified Ethereum transaction with timestamp 500. -/
def ethTxW : EthereumTransaction :=
  { network := Network.ethereumMainnet, hash := "0xh", blockNumber := 1,
    timestamp := 500, status := TransactionStatus.success, fromAddress := "0xf",
    toAddress := none, value := "0", gasPrice := "1", gasLimit := "21000",
    gasUsed := "21000", fee := none, nonce := 0, input := none,
    isContractInteraction := false }

/-- A unified Solana transaction with timestamp 500. -/
def solTxW : SolanaTransaction :=
  { network := Network.solanaMainnet, hash := "sig1", signature := "sig1",
    blockNumber := 9, slot := 9, timestamp := 500,
    status := TransactionStatus.success, fee := "5000", feePayer := "AA",
    accountKeys := ["AA"], instructions := [], tokenBalances := none }

/-- A one-transaction provider page (Ethereum). -/
def ethPageW : PaginatedResponse EthereumTransaction :=
  { data := [ethTxW], pagination := { hasMore := false, page := some 1 } }

/-- A one-transaction provider page (Solana). -/
def solPageW : PaginatedResponse SolanaTransaction :=
  { data := [solTxW], pagination := { hasMore := false } }

/-- Query options carrying both time bounds. -/
def optionsW : PaginationOptions := { startTime := some 10, endTime := some 1000 }

/-- C9 witness: constant providers returning the one-transaction pages,
queried with both time bounds set. -/
theorem adapters_time_range_filter_witness :
    (∃ r, EthereumAdapter.getTransactions (fun _ _ => Except.ok ethPageW)
        addrW optionsW = (Except.ok r, 1) ∧
      r.pagination = ethPageW.pagination ∧
      ∀ tx ∈ r.data, (∀ st, optionsW.startTime = some st → st ≤ tx.timestamp) ∧
        (∀ et, optionsW.endTime = some et → tx.timestamp ≤ et)) ∧
    (∃ r, SolanaAdapter.getTransactions (fun _ _ => Except.ok solPageW)
        pkW optionsW = (Except.ok r, 1) ∧
      r.pagination = solPageW.pagination ∧
      ∀ tx ∈ r.data, (∀ st, optionsW.startTime = some st → st ≤ tx.timestamp) ∧
        (∀ et, optionsW.endTime = some et → tx.timestamp ≤ et)) :=
  adapters_time_range_filter (fun _ _ => Except.ok ethPageW)
    (fun _ _ => Except.ok solPageW) addrW pkW optionsW ethPageW solPageW
    (by decide) rfl (by decide) rfl

/-!
Caching. The key generator and TransactionCache wrapper are embedded
from src/src/cache/index.ts; the MemoryCache class is embedded from
cache/memory-cache.ts (carried inside src/README.md after the document
separator). The class's Map<string, entry> is modelled as an
insertion-ordered association list with distinct keys, matching
JavaScript Map semantics; Date.now() is passed to each operation as
`now`. Only finite, nonzero configured defaultTtl/maxSize are modelled
(TransactionCache always passes 30000/100 or the user's values through
`||`, so zero would fall back to those defaults anyway).
-/

/-- Cache configuration (interface CacheConfig, resolved defaults). -/
structure CacheConfig where
  defaultTtl : Nat
  maxSize : Nat
  enabled : Bool
deriving DecidableEq, Repr

/-- MemoryCacheEntry: value, absolute expiry, creation time. -/
structure CacheEntry (α : Type) where
  value : α
  expiresAt : Nat
  createdAt : Nat
deriving DecidableEq, Repr

/-- The MemoryCache class state: its resolved configuration fields plus
the insertion-ordered keyed entries of its Map. -/
structure MemoryCacheState (α : Type) where
  config : CacheConfig
  entries : List (String × CacheEntry α)
deriving DecidableEq, Repr

/-- Map.prototype.delete: drop the entry under the key, preserving the
order of the rest. -/
def MemoryCache.mapDelete (entries : List (String × CacheEntry α))
    (key : String) : List (String × CacheEntry α) :=
  entries.filter fun kv => kv.1 != key

/-- Map.prototype.set: update an existing key in place (keeping its
insertion position) or append a new one. -/
def MemoryCache.mapSet (entries : List (String × CacheEntry α))
    (key : String) (entry : CacheEntry α) : List (String × CacheEntry α) :=
  if entries.any fun kv => kv.1 == key then
    entries.map fun kv => if kv.1 == key then (key, entry) else kv
  else entries ++ [(key, entry)]

/-- isExpired: Date.now() strictly past the absolute expiry (at
now = expiresAt the entry is still served). -/
def MemoryCache.isExpired (now : Nat) (entry : CacheEntry α) : Bool :=
  decide (entry.expiresAt < now)

/-- evictExpired: delete every entry whose expiry lies strictly in the
past. -/
def MemoryCache.evictExpired (now : Nat) (s : MemoryCacheState α) :
    MemoryCacheState α :=
  { s with entries := s.entries.filter fun kv => !(MemoryCache.isExpired now kv.2) }

/-- Stable insertion of an entry into a list sorted ascending by
creation time (an earlier-positioned entry stays before equal creation
times). -/
def MemoryCache.insertByCreatedAt (x : String × CacheEntry α) :
    List (String × CacheEntry α) → List (String × CacheEntry α)
  | [] => [x]
  | y :: ys =>
    if y.2.createdAt < x.2.createdAt then y :: MemoryCache.insertByCreatedAt x ys
    else x :: y :: ys

/-- The stable sort by creation time used by evictOldest (the source
sorts the Map's entries with the comparator a.createdAt - b.createdAt). -/
def MemoryCache.sortByCreatedAt :
    List (String × CacheEntry α) → List (String × CacheEntry α)
  | [] => []
  | x :: xs => MemoryCache.insertByCreatedAt x (MemoryCache.sortByCreatedAt xs)

/-- evictOldest: nothing below capacity; at or above capacity, delete the
size - maxSize + 1 entries with the oldest creation times. -/
def MemoryCache.evictOldest (s : MemoryCacheState α) : MemoryCacheState α :=
  if s.entries.length < s.config.maxSize then s
  else
    let sorted := MemoryCache.sortByCreatedAt s.entries
    let toRemove := s.entries.length - s.config.maxSize + 1
    let victims := (sorted.take toRemove).map fun kv => kv.1
    { s with entries := s.entries.filter fun kv => !(victims.contains kv.1) }

/-- MemoryCache.get: a disabled cache reports absence; otherwise evict
all expired entries, then look the key up (the residual expiry re-check
of the source cannot fire at a single now, but is kept). -/
def MemoryCache.get (now : Nat) (key : String) (s : MemoryCacheState α) :
    Option α × MemoryCacheState α :=
  if s.config.enabled = false then (none, s)
  else
    let s1 := MemoryCache.evictExpired now s
    match s1.entries.lookup key with
    | none => (none, s1)
    | some entry =>
      if MemoryCache.isExpired now entry then
        (none, { s1 with entries := MemoryCache.mapDelete s1.entries key })
      else (some entry.value, s1)

/-- MemoryCache.set: a disabled cache stores nothing; otherwise evict
expired entries, evict the oldest when at capacity, then store under the
key with absolute expiry now + (ttl || defaultTtl). -/
def MemoryCache.set (now : Nat) (key : String) (value : α) (ttl : Option Nat)
    (s : MemoryCacheState α) : MemoryCacheState α :=
  if s.config.enabled = false then s
  else
    let s1 := MemoryCache.evictExpired now s
    let s2 := MemoryCache.evictOldest s1
    let entry : CacheEntry α :=
      { value := value
        expiresAt := now + jsOrDefaultNat ttl s.config.defaultTtl
        createdAt := now }
    { s2 with entries := MemoryCache.mapSet s2.entries key entry }

/-- JavaScript `x || d` on an optional string (an absent or empty string
falls back to the default). -/
def jsOrDefaultStr (o : Option String) (d : String) : String :=
  match o with
  | some v => if v = "" then d else v
  | none => d

/-- TransactionCacheKeyGenerator.generateKey (src/src/cache/index.ts):
the colon-joined key of network, lowercased address, and the caching-
relevant option fields in fixed order with their defaults. -/
def TransactionCacheKeyGenerator.generateKey (network address : String)
    (options : Option PaginationOptions) : String :=
  String.intercalate ":"
    ["tx", network, strToLower address,
      jsOrDefaultStr ((options.bind fun o => o.limit).map toString) "100",
      jsOrDefaultStr ((options.bind fun o => o.page).map toString) "1",
      jsOrDefaultStr (options.bind fun o => o.cursor) "",
      jsOrDefaultStr ((options.bind fun o => o.startTime).map toString) "",
      jsOrDefaultStr ((options.bind fun o => o.endTime).map toString) ""]

/-- TransactionCache.get (src/src/cache/index.ts): key generation plus
the underlying store's get. -/
def TransactionCache.get (now : Nat) (network address : String)
    (options : Option PaginationOptions)
    (s : MemoryCacheState (PaginatedResponse Transaction)) :
    Option (PaginatedResponse Transaction) ×
      MemoryCacheState (PaginatedResponse Transaction) :=
  MemoryCache.get now (TransactionCacheKeyGenerator.generateKey network address options) s

/-- TransactionCache.set (src/src/cache/index.ts). -/
def TransactionCache.set (now : Nat) (network address : String)
    (response : PaginatedResponse Transaction)
    (options : Option PaginationOptions) (ttl : Option Nat)
    (s : MemoryCacheState (PaginatedResponse Transaction)) :
    MemoryCacheState (PaginatedResponse Transaction) :=
  MemoryCache.set now (TransactionCacheKeyGenerator.generateKey network address options)
    response ttl s

/-!
BlockchainSDK facade (src/src/client.ts): network auto-detection, cache
lookup, dispatch to the adapter, cache write-back. The two adapters'
providers are passed as functions; the third component of the result
counts provider invocations.
-/

/-- Dispatch to the matching adapter and lift its typed page into the
unified Transaction union. -/
def BlockchainSDK.fetchFromAdapter
    (ethProvider : String → PaginationOptions →
      Except SDKErr (PaginatedResponse EthereumTransaction))
    (solProvider : String → PaginationOptions →
      Except SDKErr (PaginatedResponse SolanaTransaction))
    (network : Network) (address : String) (options : PaginationOptions) :
    Except SDKErr (PaginatedResponse Transaction) × Nat :=
  match network with
  | Network.ethereumMainnet =>
    let r := EthereumAdapter.getTransactions ethProvider address options
    (r.1.map fun pr => { data := pr.data.map Transaction.eth
                         pagination := pr.pagination }, r.2)
  | Network.solanaMainnet =>
    let r := SolanaAdapter.getTransactions solProvider address options
    (r.1.map fun pr => { data := pr.data.map Transaction.sol
                         pagination := pr.pagination }, r.2)

/-- BlockchainSDK.getTransactions: detect the network from the address
format (validation error on failure, before any cache or network
activity), consult the cache when one is configured, dispatch to the
adapter, and cache a successful result. -/
def BlockchainSDK.getTransactionsPure
    (ethProvider : String → PaginationOptions →
      Except SDKErr (PaginatedResponse EthereumTransaction))
    (solProvider : String → PaginationOptions →
      Except SDKErr (PaginatedResponse SolanaTransaction))
    (cache : Option (MemoryCacheState (PaginatedResponse Transaction)))
    (now : Nat) (address : String) (options : PaginationOptions) :
    Except SDKErr (PaginatedResponse Transaction) ×
      Option (MemoryCacheState (PaginatedResponse Transaction)) × Nat :=
  match detectNetwork address with
  | none =>
    (Except.error (SDKErr.validation
      "Unable to detect network from address format. Please use a valid Ethereum address (0x...) or Solana public key."
      address), cache, 0)
  | some network =>
    match cache with
    | none =>
      let r := BlockchainSDK.fetchFromAdapter ethProvider solProvider network
        address options
      (r.1, none, r.2)
    | some c0 =>
      let g := TransactionCache.get now network.toStringValue address (some options) c0
      match g.1 with
      | some cached => (Except.ok cached, some g.2, 0)
      | none =>
        let r := BlockchainSDK.fetchFromAdapter ethProvider solProvider network
          address options
        match r.1 with
        | Except.ok result =>
          (Except.ok result,
            some (TransactionCache.set now network.toStringValue address result
              (some options) none g.2), r.2)
        | Except.error e => (Except.error e, some g.2, r.2)

/-- A failing format check makes the adapter validation fail
(Ethereum). -/
lemma validateAddress_eth_false (address : String)
    (h : isValidEthereumAddress address = false) :
    EthereumAdapter.validateAddress address = false := by
  by_cases he : address = "" <;>
    simp [EthereumAdapter.validateAddress, validateAddressForNetwork, he, h]

/-- A failing format check makes the adapter validation fail (Solana). -/
lemma validateAddress_sol_false (publicKey : String)
    (h : isValidSolanaPublicKey publicKey = false) :
    SolanaAdapter.validateAddress publicKey = false := by
  by_cases he : publicKey = "" <;>
    simp [SolanaAdapter.validateAddress, validateAddressForNetwork, he, h]

/-- C8: a malformed address (matching neither the 0x-hex format nor the
base58 32-44 format) makes both adapters and the auto-detecting facade
raise a validation error carrying the offending input with the provider
fetch never invoked (zero provider calls); the facade leaves the cache
untouched. -/
theorem invalid_address_rejected_before_fetch (address : String)
    (heth : isValidEthereumAddress address = false)
    (hsol : isValidSolanaPublicKey address = false)
    (ethProvider : String → PaginationOptions →
      Except SDKErr (PaginatedResponse EthereumTransaction))
    (solProvider : String → PaginationOptions →
      Except SDKErr (PaginatedResponse SolanaTransaction))
    (options : PaginationOptions)
    (cache : Option (MemoryCacheState (PaginatedResponse Transaction)))
    (now : Nat) :
    EthereumAdapter.getTransactions ethProvider address options
      = (Except.error (SDKErr.validation "Invalid Ethereum address format" address),
          0) ∧
    SolanaAdapter.getTransactions solProvider address options
      = (Except.error (SDKErr.validation "Invalid Solana public key format" address),
          0) ∧
    BlockchainSDK.getTransactionsPure ethProvider solProvider cache now address options
      = (Except.error (SDKErr.validation
          "Unable to detect network from address format. Please use a valid Ethereum address (0x...) or Solana public key."
          address), cache, 0) := by
  have hva := validateAddress_eth_false address heth
  have hvs := validateAddress_sol_false address hsol
  refine ⟨?_, ?_, ?_⟩
  · simp [EthereumAdapter.getTransactions, hva]
  · simp [SolanaAdapter.getTransactions, hvs]
  · simp [BlockchainSDK.getTransactionsPure, detectNetwork, heth, hsol]

/-- C8 witness: a string matching neither address format, with constant
providers and no cache. -/
theorem invalid_address_rejected_before_fetch_witness :
    EthereumAdapter.getTransactions (fun _ _ => Except.ok ethPageW)
        "hello world!" {}
      = (Except.error
          (SDKErr.validation "Invalid Ethereum address format" "hello world!"), 0) ∧
    SolanaAdapter.getTransactions (fun _ _ => Except.ok solPageW)
        "hello world!" {}
      = (Except.error
          (SDKErr.validation "Invalid Solana public key format" "hello world!"), 0) ∧
    BlockchainSDK.getTransactionsPure (fun _ _ => Except.ok ethPageW)
        (fun _ _ => Except.ok solPageW) none 0 "hello world!" {}
      = (Except.error (SDKErr.validation
          "Unable to detect network from address format. Please use a valid Ethereum address (0x...) or Solana public key."
          "hello world!"), none, 0) :=
  invalid_address_rejected_before_fetch "hello world!" (by decide) (by decide)
    (fun _ _ => Except.ok ethPageW) (fun _ _ => Except.ok solPageW) {} none 0

/-- The lowercase form of pkW: a distinct, also-valid base58 public
key. -/
def pkLowerW : String := "aaaaaaaaaaaaaaaaaaaaaaaaaaaaaaaa"

/-- An empty unified cached page. -/
def cacheRespW : PaginatedResponse Transaction :=
  { data := [], pagination := { hasMore := false } }

/-- A fresh enabled transaction-cache store (TransactionCache defaults:
ttl 30000 ms, maxSize 100). -/
def cacheStateW : MemoryCacheState (PaginatedResponse Transaction) :=
  { config := { defaultTtl := 30000, maxSize := 100, enabled := true }
    entries := [] }

/-- C10: generateKey lowercases the address for every network, so any
two addresses with the same lowercase folding — in particular two
distinct valid base58 public keys differing only in letter case, for
which normalization is the identity — produce the same cache key, and a
result cached for one is returned by a lookup for the other. -/
theorem cacheKey_lowercases_all_networks :
    (∀ (network a b : String) (options : Option PaginationOptions),
        strToLower a = strToLower b →
        TransactionCacheKeyGenerator.generateKey network a options
          = TransactionCacheKeyGenerator.generateKey network b options) ∧
    (pkW ≠ pkLowerW ∧ isValidSolanaPublicKey pkW = true ∧
      isValidSolanaPublicKey pkLowerW = true ∧
      normalizeSolanaPublicKey pkW = Except.ok pkW ∧
      normalizeSolanaPublicKey pkLowerW = Except.ok pkLowerW ∧
      (TransactionCache.get 0 "solana-mainnet" pkLowerW none
        (TransactionCache.set 0 "solana-mainnet" pkW cacheRespW none none
          cacheStateW)).1 = some cacheRespW) := by
  constructor
  · intro network a b options h
    simp only [TransactionCacheKeyGenerator.generateKey, h]
  · refine ⟨by decide, by decide, by decide, by decide, by decide, by decide⟩

/-- C10 witness: the key congruence at the concrete case-variant pair of
valid public keys. -/
theorem cacheKey_lowercases_all_networks_witness :
    TransactionCacheKeyGenerator.generateKey "solana-mainnet" pkW none
      = TransactionCacheKeyGenerator.generateKey "solana-mainnet" pkLowerW none :=
  cacheKey_lowercases_all_networks.1 "solana-mainnet" pkW pkLowerW none (by decide)

end TrxSdk
